import Mathlib

/-!
Shallow embedding of the NADG (NEXUS-AI Distributed Grid) dispatch-and-failover
engine: the master orchestrator logic of `master-app/app.py` (worker registry
client, dispatcher, failover retry loop, run coordinator) and the execution-node
contract of `worker-node/main.py` (auth check, subprocess execution, response
shaping).  External effects (HTTP round trips, registry queries) are modelled by
explicit outcome oracles supplied as parameters.
-/

namespace NADG

/-- A worker record as stored in the `worker_nodes` table and returned by
`get_active_workers` (a Supabase row with `id`, `vm_url`, `status`,
`total_tasks`; `last_ping` is omitted since the dispatch logic never reads it). -/
structure Worker where
  id : Nat
  vm_url : String
  status : String
  total_tasks : Nat
deriving DecidableEq, Repr

/-- The JSON body of a `POST /execute` response as produced by the worker node
(`worker-node/main.py`): a `TaskResponse` on HTTP 200, and FastAPI's
`{"detail": ...}` object when an `HTTPException` (401/408/500) is raised. -/
structure TaskResponse where
  task_id : Nat
  status : String
  output : String
  error : String
  executed_at : String
deriving DecidableEq, Repr

/-- A parsed JSON response body, as seen by the master after
`await response.json()`. -/
inductive JsonBody where
  | taskResponse (r : TaskResponse)
  | detail (msg : String)
deriving DecidableEq, Repr

/-- Outcome of one outbound `session.post(f"{worker_url}/execute", ...)` plus
`response.json()` round trip, as observed inside `send_task_to_worker`
(`master-app/app.py` lines 67-88): either the round trip completed and the body
parsed as JSON (aiohttp does not raise on non-2xx status codes, and FastAPI
serves both success and `HTTPException` bodies as `application/json`), or some
exception was raised (connection failure, client-side timeout, unparsable
body). -/
inductive HttpOutcome where
  | responded (statusCode : Nat) (body : JsonBody)
  | raised (msg : String)
deriving DecidableEq, Repr

/-- Outcome of one `supabase.table('worker_nodes').select...` query inside
`get_active_workers` (`master-app/app.py` lines 37-44): the row list, or an
exception. -/
inductive RegistryOutcome where
  | ok (rows : List Worker)
  | raised (msg : String)
deriving Repr

/-- The dict returned by `send_task_to_worker` / `send_task_with_retry`
(`master-app/app.py`): keys `worker`, `worker_id`, `status`, and optionally
`result`, `error`, `task_index`.  Absent keys are `none`. -/
structure DispatchResult where
  worker : String
  worker_id : Option Nat
  status : String
  result : Option JsonBody
  error : Option String
  task_index : Option Nat
deriving DecidableEq, Repr

/-- Side-effect trace of one subtask's retry loop: the worker ids of the
outbound `/execute` calls in order, the `mark_worker_offline` calls in order,
and the number of `get_active_workers` registry queries made. -/
structure Trace where
  attempts : List Nat
  markedOffline : List Nat
  registryCalls : Nat
deriving DecidableEq, Repr

/-- The external world for one subtask's retry loop: `transport k w` is the
outcome of the `/execute` round trip for the `k`-th attempt (0-based) when sent
to worker `w`; `registry k` is the outcome of the `k`-th registry query. -/
structure Env where
  transport : Nat → Worker → HttpOutcome
  registry : Nat → RegistryOutcome

/-- Embedding of `get_active_workers` (`master-app/app.py` lines 37-44): the
query result on success, the empty list when the query raises. -/
def get_active_workers (o : RegistryOutcome) : List Worker :=
  match o with
  | .ok rows => rows
  | .raised _ => []

/-- Embedding of `send_task_to_worker` (`master-app/app.py` lines 58-88).  The
`try` block succeeds whenever the round trip completed with a JSON body — the
HTTP status code is never inspected — and the `except` branch catches any raised
exception. -/
def send_task_to_worker (outcome : HttpOutcome) (worker_url : String)
    (worker_id : Option Nat) : DispatchResult :=
  match outcome with
  | .responded _statusCode body =>
      { worker := worker_url, worker_id := worker_id, status := "success",
        result := some body, error := none, task_index := none }
  | .raised msg =>
      { worker := worker_url, worker_id := worker_id, status := "error",
        result := none, error := some msg, task_index := none }

/-- Python `set.add` on the attempted-worker set (modelled as a list, adding
only when absent so membership matches set semantics). -/
def setAdd (s : List Nat) (x : Nat) : List Nat :=
  if x ∈ s then s else s ++ [x]

/-- The dict returned by `send_task_with_retry` when reassignment finds no
remaining candidate (`master-app/app.py` lines 110-116). -/
def noWorkersResult (task_index : Nat) : DispatchResult :=
  { worker := "none", worker_id := none, status := "error", result := none,
    error := some "No available workers remaining", task_index := some task_index }

/-- The dict returned by `send_task_with_retry` when the attempt bound is
reached (`master-app/app.py` lines 141-147). -/
def retriesResult (max_retries task_index : Nat) : DispatchResult :=
  { worker := "failed", worker_id := none, status := "error", result := none,
    error := some s!"Task failed after {max_retries} retries",
    task_index := some task_index }

/-- Result of the worker-selection step at the top of each retry-loop
iteration. -/
inductive PickResult where
  | exhausted (tr : Trace)
  | picked (w : Worker) (tr : Trace)
deriving Repr

/-- The head of each retry-loop iteration (`master-app/app.py` lines 100-118):
if the current worker was already attempted, re-fetch the active workers,
filter out attempted ids and take the first remaining candidate; otherwise keep
the current worker. -/
def pick_worker (env : Env) (attempted : List Nat) (tr : Trace)
    (current : Worker) : PickResult :=
  if current.id ∈ attempted then
    match (get_active_workers (env.registry tr.registryCalls)).filter
        (fun w => !decide (w.id ∈ attempted)) with
    | [] => .exhausted { tr with registryCalls := tr.registryCalls + 1 }
    | w :: _ => .picked w { tr with registryCalls := tr.registryCalls + 1 }
  else .picked current tr

/-- The `for attempt in range(max_retries)` loop of `send_task_with_retry`
(`master-app/app.py` lines 99-147), with `fuel` the remaining iterations:
select a worker (possibly reassigning, possibly exhausting the pool), record
the attempt, send the task, return on dispatch success, otherwise mark the
worker offline and continue. -/
def send_task_with_retry_loop (env : Env) (task_index max_retries : Nat) :
    Nat → Worker → List Nat → Trace → DispatchResult × Trace
  | 0, _, _, tr => (retriesResult max_retries task_index, tr)
  | fuel + 1, current, attempted, tr =>
    match pick_worker env attempted tr current with
    | .exhausted tr2 => (noWorkersResult task_index, tr2)
    | .picked w tr2 =>
      if (send_task_to_worker (env.transport tr2.attempts.length w) w.vm_url
            (some w.id)).status = "success" then
        (send_task_to_worker (env.transport tr2.attempts.length w) w.vm_url
           (some w.id),
         { tr2 with attempts := tr2.attempts ++ [w.id] })
      else
        send_task_with_retry_loop env task_index max_retries fuel w
          (setAdd attempted w.id)
          { tr2 with attempts := tr2.attempts ++ [w.id],
                     markedOffline := tr2.markedOffline ++ [w.id] }

/-- Embedding of `send_task_with_retry` (`master-app/app.py` lines 91-147):
run the retry loop from the initially assigned worker with an empty attempted
set, returning the terminal dict together with the side-effect trace. -/
def send_task_with_retry (env : Env) (task_index : Nat) (initial_worker : Worker)
    (max_retries : Nat) : DispatchResult × Trace :=
  send_task_with_retry_loop env task_index max_retries max_retries
    initial_worker [] { attempts := [], markedOffline := [], registryCalls := 0 }

/-- Embedding of `distribute_tasks` (`master-app/app.py` lines 150-165): one
retry-loop invocation per subtask with initial worker `workers[i % len(workers)]`,
results gathered in subtask order.  When `tasks` is nonempty and `workers` is
empty, `i % len(workers)` raises `ZeroDivisionError` in Python, modelled as the
`Except.error` case; `envs i` is the external world seen by subtask `i`. -/
def distribute_tasks (envs : Nat → Env) (tasks : List String)
    (workers : List Worker) : Except String (List (DispatchResult × Trace)) :=
  match tasks, workers with
  | [], _ => .ok []
  | _ :: _, [] => .error "ZeroDivisionError: integer division or modulo by zero"
  | _ :: _, w :: ws =>
      .ok ((List.range tasks.length).map fun i =>
        send_task_with_retry (envs i) i
          ((w :: ws).get ⟨i % (w :: ws).length, Nat.mod_lt i (Nat.succ_pos ws.length)⟩) 3)

/-- The worker ids on which `update_worker_task_count` is invoked after a run,
modelled from `main` (`master-app/app.py` lines 284-297): after
`distribute_tasks` returns, `for worker in workers: update_worker_task_count(worker)`
runs over the whole run-start snapshot; if `distribute_tasks` raises, the loop
is never reached. -/
def run_update_calls (envs : Nat → Env) (tasks : List String)
    (workers : List Worker) : List Nat :=
  match distribute_tasks envs tasks workers with
  | .ok _ => workers.map Worker.id
  | .error _ => []

/-- The worker ids that received at least one `/execute` call during the run:
the concatenation of every subtask's attempt trace. -/
def run_attempted_ids (envs : Nat → Env) (tasks : List String)
    (workers : List Worker) : List Nat :=
  match distribute_tasks envs tasks workers with
  | .ok l => (l.map (fun p => p.2.attempts)).flatten
  | .error _ => []

/-- Result of the `verify_auth_token` FastAPI dependency
(`worker-node/main.py` lines 34-57). -/
inductive AuthCheck where
  | ok
  | unauthorized (detail : String)
deriving DecidableEq, Repr

/-- Embedding of `verify_auth_token` (`worker-node/main.py` lines 34-57):
`token` is the configured `NADG_AUTH_TOKEN` (empty string when unset, as with
`os.environ.get(..., '')`), `header` the request's `X-NADG-AUTH` header. -/
def verify_auth_token (token : String) (header : Option String) : AuthCheck :=
  if token = "" then .ok
  else
    match header with
    | none => .unauthorized "Missing X-NADG-AUTH header"
    | some h => if h ≠ token then .unauthorized "Invalid authentication token" else .ok

/-- Outcome of the `subprocess.run(["python3", "-c", task], ..., timeout=...)`
call inside the worker's `/execute` handler. -/
inductive ExecOutcome where
  | finished (returncode : Int) (stdout stderr : String)
  | timedOut
  | raised (msg : String)
deriving DecidableEq, Repr

/-- The HTTP reply produced by the worker's `/execute` handler: a 200 with a
`TaskResponse` body, or an `HTTPException` with a status code and detail. -/
inductive WorkerReply where
  | ok (r : TaskResponse)
  | httpError (code : Nat) (detail : String)
deriving DecidableEq, Repr

/-- The `try`/`except` body of `execute_task` after authentication
(`worker-node/main.py` lines 104-138): shape the subprocess result into a
`TaskResponse` (status `completed` on return code 0, else `failed`), raise 408
on `subprocess.TimeoutExpired`, 500 on any other exception. -/
def run_task_subprocess (task_id timeout : Nat) (oexec : ExecOutcome)
    (now : String) : WorkerReply :=
  match oexec with
  | .finished rc out err =>
      .ok { task_id := task_id,
            status := if rc = 0 then "completed" else "failed",
            output := out, error := err, executed_at := now }
  | .timedOut => .httpError 408 s!"Task execution timed out after {timeout} seconds"
  | .raised msg => .httpError 500 s!"Task execution failed: {msg}"

/-- Embedding of the worker's `POST /execute` handler `execute_task`
(`worker-node/main.py` lines 95-138), including the `verify_auth_token`
dependency. -/
def execute_task (token : String) (header : Option String)
    (task_id timeout : Nat) (oexec : ExecOutcome) (now : String) : WorkerReply :=
  match verify_auth_token token header with
  | .unauthorized d => .httpError 401 d
  | .ok => run_task_subprocess task_id timeout oexec now

/-- How a completed worker reply reaches the master: FastAPI serializes both the
200 `TaskResponse` and `HTTPException` bodies (`{"detail": ...}`) as
`application/json`, and aiohttp's `response.json()` parses either without
raising, regardless of the status code. -/
def replyToOutcome : WorkerReply → HttpOutcome
  | .ok r => .responded 200 (.taskResponse r)
  | .httpError code detail => .responded code (.detail detail)

/-- A successful `TaskResponse` used by concrete evaluation environments. -/
def respOk : TaskResponse :=
  { task_id := 0, status := "completed", output := "ok", error := "",
    executed_at := "t0" }

/-- A `TaskResponse` for a task that ran and failed on its own terms
(non-zero return code, populated stderr). -/
def respFailed : TaskResponse :=
  { task_id := 0, status := "failed", output := "",
    error := "Traceback: boom", executed_at := "t0" }

/-- Concrete worker records used in witnesses and counterexamples. -/
def wA : Worker := { id := 1, vm_url := "http://w1", status := "active", total_tasks := 0 }

/-- A second concrete worker record. -/
def wB : Worker := { id := 2, vm_url := "http://w2", status := "active", total_tasks := 0 }

/-- Environment where every round trip succeeds with a completed task. -/
def envOkAll : Env :=
  { transport := fun _ _ => .responded 200 (.taskResponse respOk),
    registry := fun _ => .ok [] }

/-- Environment where every round trip succeeds but the task itself failed. -/
def envExecFailed : Env :=
  { transport := fun _ _ => .responded 200 (.taskResponse respFailed),
    registry := fun _ => .ok [] }

/-- A third concrete worker record. -/
def wC : Worker := { id := 3, vm_url := "http://w3", status := "active", total_tasks := 0 }

/-- A fourth concrete worker record. -/
def wD : Worker := { id := 4, vm_url := "http://w4", status := "active", total_tasks := 0 }

/-- Environment where every round trip raises a connection error and the
registry always answers with four active workers, so untried candidates remain
even after the attempt bound is hit. -/
def envFailAll : Env :=
  { transport := fun _ _ => .raised "Cannot connect to host",
    registry := fun _ => .ok [wA, wB, wC, wD] }

/-- Environment where every round trip raises and every registry query raises
(registry outage). -/
def envOutage : Env :=
  { transport := fun _ _ => .raised "Cannot connect to host",
    registry := fun _ => .raised "registry unavailable" }

/-- Environment where every round trip raises and the registry only ever
returns worker `wA` (so once `wA` is attempted, the pool is exhausted). -/
def envExhaust : Env :=
  { transport := fun _ _ => .raised "Cannot connect to host",
    registry := fun _ => .ok [wA] }

/-- Environment in which the worker-side execution times out: every round trip
completes and delivers exactly the worker's 408 reply, with an untried active
worker (`wB`) available at the registry. -/
def envTimeout408 : Env :=
  { transport := fun _ _ => replyToOutcome (execute_task "" none 0 30 .timedOut "t0"),
    registry := fun _ => .ok [wB] }

/-- Any element y is in `setAdd s x` exactly when it is in `s` or equals `x`. -/
theorem mem_setAdd (s : List Nat) (x y : Nat) : y ∈ setAdd s x ↔ y ∈ s ∨ y = x := by
  unfold setAdd
  by_cases hx : x ∈ s
  · rw [if_pos hx]
    constructor
    · exact Or.inl
    · rintro (h | rfl)
      · exact h
      · exact hx
  · rw [if_neg hx]
    simp

/-- Worker selection either exhausts the pool or picks a worker whose id is not
in the attempted set; it never changes the attempt trace. -/
theorem pick_worker_spec (env : Env) (attempted : List Nat) (tr : Trace)
    (current : Worker) :
    (∃ tr2, pick_worker env attempted tr current = .exhausted tr2 ∧
      tr2.attempts = tr.attempts) ∨
    (∃ w tr2, pick_worker env attempted tr current = .picked w tr2 ∧
      tr2.attempts = tr.attempts ∧ w.id ∉ attempted) := by
  unfold pick_worker
  by_cases hc : current.id ∈ attempted
  · rw [if_pos hc]
    cases hl : (get_active_workers (env.registry tr.registryCalls)).filter
        (fun w => !decide (w.id ∈ attempted)) with
    | nil => exact Or.inl ⟨_, rfl, rfl⟩
    | cons w0 rest =>
      refine Or.inr ⟨w0, _, rfl, rfl, ?_⟩
      have hmem : w0 ∈ (get_active_workers (env.registry tr.registryCalls)).filter
          (fun w => !decide (w.id ∈ attempted)) := by
        rw [hl]; exact List.mem_cons_self w0 rest
      have h2 := (List.mem_filter.mp hmem).2
      simpa using h2
  · rw [if_neg hc]
    exact Or.inr ⟨current, tr, rfl, rfl, hc⟩

/-- The retry loop only ever appends to the attempt trace. -/
theorem loop_attempts_extend (env : Env) (ti maxR : Nat) :
    ∀ (fuel : Nat) (current : Worker) (attempted : List Nat) (tr : Trace),
    ∃ s, (send_task_with_retry_loop env ti maxR fuel current attempted tr).2.attempts
      = tr.attempts ++ s := by
  intro fuel
  induction fuel with
  | zero =>
    intro current attempted tr
    exact ⟨[], by simp [send_task_with_retry_loop]⟩
  | succ f ih =>
    intro current attempted tr
    rcases pick_worker_spec env attempted tr current with
      ⟨tr2, hp, ha⟩ | ⟨w, tr2, hp, ha, hw⟩
    · exact ⟨[], by simp only [send_task_with_retry_loop, hp]; rw [ha]; simp⟩
    · by_cases hs : (send_task_to_worker (env.transport tr2.attempts.length w)
          w.vm_url (some w.id)).status = "success"
      · refine ⟨[w.id], ?_⟩
        simp only [send_task_with_retry_loop, hp]
        rw [if_pos hs]
        simp [ha]
      · obtain ⟨s2, hs2⟩ := ih w (setAdd attempted w.id)
          { tr2 with attempts := tr2.attempts ++ [w.id],
                     markedOffline := tr2.markedOffline ++ [w.id] }
        refine ⟨[w.id] ++ s2, ?_⟩
        simp only [send_task_with_retry_loop, hp]
        rw [if_neg hs, hs2]
        simp [ha]

/-- Each attempt targets a worker id outside the attempted set, so the attempt
trace stays duplicate-free. -/
theorem loop_attempts_nodup (env : Env) (ti maxR : Nat) :
    ∀ (fuel : Nat) (current : Worker) (attempted : List Nat) (tr : Trace),
    tr.attempts.Nodup → (∀ x ∈ tr.attempts, x ∈ attempted) →
    (send_task_with_retry_loop env ti maxR fuel current attempted tr).2.attempts.Nodup := by
  intro fuel
  induction fuel with
  | zero =>
    intro current attempted tr hnd _
    simpa [send_task_with_retry_loop] using hnd
  | succ f ih =>
    intro current attempted tr hnd hsub
    rcases pick_worker_spec env attempted tr current with
      ⟨tr2, hp, ha⟩ | ⟨w, tr2, hp, ha, hw⟩
    · simp only [send_task_with_retry_loop, hp]
      rw [show tr2.attempts = tr.attempts from ha]
      exact hnd
    · have hnotin : w.id ∉ tr.attempts := fun hmem => hw (hsub _ hmem)
      have hnd2 : (tr2.attempts ++ [w.id]).Nodup := by
        rw [ha]
        simp [List.nodup_append, hnd, hnotin]
      by_cases hs : (send_task_to_worker (env.transport tr2.attempts.length w)
          w.vm_url (some w.id)).status = "success"
      · simp only [send_task_with_retry_loop, hp]
        rw [if_pos hs]
        exact hnd2
      · simp only [send_task_with_retry_loop, hp]
        rw [if_neg hs]
        apply ih
        · exact hnd2
        · intro x hx
          have hx2 : x ∈ tr2.attempts ++ [w.id] := hx
          rw [ha] at hx2
          rcases List.mem_append.mp hx2 with hx1 | hx3
          · exact (mem_setAdd attempted w.id x).mpr (Or.inl (hsub _ hx1))
          · exact (mem_setAdd attempted w.id x).mpr (Or.inr (List.mem_singleton.mp hx3))

/-- Terminal-state characterization of the retry loop: it ends in the
retries-exhausted result having used exactly its fuel in attempts, or in a
dispatch success, or in the no-candidates result having used strictly less
than its fuel. -/
theorem loop_cases (env : Env) (ti maxR : Nat) :
    ∀ (fuel : Nat) (current : Worker) (attempted : List Nat) (tr : Trace),
    ((send_task_with_retry_loop env ti maxR fuel current attempted tr).1
        = retriesResult maxR ti ∧
      (send_task_with_retry_loop env ti maxR fuel current attempted tr).2.attempts.length
        = tr.attempts.length + fuel) ∨
    ((send_task_with_retry_loop env ti maxR fuel current attempted tr).1.status = "success" ∧
      (send_task_with_retry_loop env ti maxR fuel current attempted tr).1.error = none ∧
      (send_task_with_retry_loop env ti maxR fuel current attempted tr).1.task_index = none ∧
      (send_task_with_retry_loop env ti maxR fuel current attempted tr).2.attempts.length
        ≤ tr.attempts.length + fuel) ∨
    ((send_task_with_retry_loop env ti maxR fuel current attempted tr).1
        = noWorkersResult ti ∧
      (send_task_with_retry_loop env ti maxR fuel current attempted tr).2.attempts.length
        < tr.attempts.length + fuel) := by
  intro fuel
  induction fuel with
  | zero =>
    intro current attempted tr
    left
    constructor <;> simp [send_task_with_retry_loop]
  | succ f ih =>
    intro current attempted tr
    rcases pick_worker_spec env attempted tr current with
      ⟨tr2, hp, ha⟩ | ⟨w, tr2, hp, ha, hw⟩
    · right; right
      have key : send_task_with_retry_loop env ti maxR (f + 1) current attempted tr
          = (noWorkersResult ti, tr2) := by
        simp [send_task_with_retry_loop, hp]
      rw [key]
      have hlen : (noWorkersResult ti, tr2).2.attempts.length = tr.attempts.length := by
        rw [show (noWorkersResult ti, tr2).2 = tr2 from rfl, ha]
      rw [hlen]
      exact ⟨rfl, by omega⟩
    · by_cases hs : (send_task_to_worker (env.transport tr2.attempts.length w)
          w.vm_url (some w.id)).status = "success"
      · right; left
        have key : send_task_with_retry_loop env ti maxR (f + 1) current attempted tr
            = (send_task_to_worker (env.transport tr2.attempts.length w) w.vm_url (some w.id),
               { tr2 with attempts := tr2.attempts ++ [w.id] }) := by
          simp only [send_task_with_retry_loop, hp]
          rw [if_pos hs]
        rw [key]
        have hshape : (send_task_to_worker (env.transport tr2.attempts.length w)
            w.vm_url (some w.id)).error = none ∧
            (send_task_to_worker (env.transport tr2.attempts.length w)
              w.vm_url (some w.id)).task_index = none := by
          cases ho : env.transport tr2.attempts.length w with
          | responded sc body => simp [send_task_to_worker]
          | raised m =>
            rw [ho] at hs
            exact absurd hs (by simp [send_task_to_worker])
        refine ⟨hs, hshape.1, hshape.2, ?_⟩
        show (tr2.attempts ++ [w.id]).length ≤ tr.attempts.length + (f + 1)
        have hlen : (tr2.attempts ++ [w.id]).length = tr.attempts.length + 1 := by
          simp [ha]
        rw [hlen]
        omega
      · have key : send_task_with_retry_loop env ti maxR (f + 1) current attempted tr
            = send_task_with_retry_loop env ti maxR f w (setAdd attempted w.id)
                { tr2 with attempts := tr2.attempts ++ [w.id],
                           markedOffline := tr2.markedOffline ++ [w.id] } := by
          simp only [send_task_with_retry_loop, hp]
          rw [if_neg hs]
        rw [key]
        have hlen : (tr2.attempts ++ [w.id]).length = tr.attempts.length + 1 := by
          simp [ha]
        rcases ih w (setAdd attempted w.id)
            { tr2 with attempts := tr2.attempts ++ [w.id],
                       markedOffline := tr2.markedOffline ++ [w.id] } with
          ⟨h1, h2⟩ | ⟨h1, h2, h3, h4⟩ | ⟨h1, h2⟩
        · left
          have h2b : (send_task_with_retry_loop env ti maxR f w (setAdd attempted w.id)
              { tr2 with attempts := tr2.attempts ++ [w.id],
                         markedOffline := tr2.markedOffline ++ [w.id] }).2.attempts.length
              = (tr2.attempts ++ [w.id]).length + f := h2
          rw [hlen] at h2b
          exact ⟨h1, by omega⟩
        · right; left
          have h4b : (send_task_with_retry_loop env ti maxR f w (setAdd attempted w.id)
              { tr2 with attempts := tr2.attempts ++ [w.id],
                         markedOffline := tr2.markedOffline ++ [w.id] }).2.attempts.length
              ≤ (tr2.attempts ++ [w.id]).length + f := h4
          rw [hlen] at h4b
          exact ⟨h1, h2, h3, by omega⟩
        · right; right
          have h2b : (send_task_with_retry_loop env ti maxR f w (setAdd attempted w.id)
              { tr2 with attempts := tr2.attempts ++ [w.id],
                         markedOffline := tr2.markedOffline ++ [w.id] }).2.attempts.length
              < (tr2.attempts ++ [w.id]).length + f := h2
          rw [hlen] at h2b
          exact ⟨h1, by omega⟩

/-- With an empty attempted set the first iteration keeps the initially
assigned worker. -/
theorem pick_worker_initial (env : Env) (w : Worker) :
    pick_worker env [] { attempts := [], markedOffline := [], registryCalls := 0 } w
      = .picked w { attempts := [], markedOffline := [], registryCalls := 0 } := by
  unfold pick_worker
  simp

/-- One unfolding step of the retry loop. -/
theorem loop_step (env : Env) (ti maxR fuel : Nat) (current : Worker)
    (attempted : List Nat) (tr : Trace) :
    send_task_with_retry_loop env ti maxR (fuel + 1) current attempted tr
      = match pick_worker env attempted tr current with
        | .exhausted tr2 => (noWorkersResult ti, tr2)
        | .picked w tr2 =>
          if (send_task_to_worker (env.transport tr2.attempts.length w) w.vm_url
                (some w.id)).status = "success" then
            (send_task_to_worker (env.transport tr2.attempts.length w) w.vm_url (some w.id),
             { tr2 with attempts := tr2.attempts ++ [w.id] })
          else
            send_task_with_retry_loop env ti maxR fuel w (setAdd attempted w.id)
              { tr2 with attempts := tr2.attempts ++ [w.id],
                         markedOffline := tr2.markedOffline ++ [w.id] } := rfl

/-- If the very first attempt's round trip completes (dispatch status
`success`), the retry loop returns that dispatch result at once: one attempt,
nobody marked offline, no registry query. -/
theorem retry_start_success (env : Env) (ti fuel : Nat) (w : Worker)
    (hs : (send_task_to_worker (env.transport 0 w) w.vm_url (some w.id)).status
      = "success") :
    send_task_with_retry env ti w (fuel + 1)
      = (send_task_to_worker (env.transport 0 w) w.vm_url (some w.id),
         { attempts := [w.id], markedOffline := [], registryCalls := 0 }) := by
  unfold send_task_with_retry
  simp [loop_step, pick_worker_initial, hs]

/-- If the first attempt fails and the subsequent reassignment query yields no
candidate outside the attempted set, the loop returns the no-available-workers
result after one attempt, one offline marking and one registry query. -/
theorem retry_start_fail_then_exhaust (env : Env) (ti fuel : Nat) (w : Worker)
    (h1 : (send_task_to_worker (env.transport 0 w) w.vm_url (some w.id)).status
      ≠ "success")
    (h2 : (get_active_workers (env.registry 0)).filter
      (fun x => !decide (x.id ∈ [w.id])) = []) :
    send_task_with_retry env ti w (fuel + 1 + 1)
      = (noWorkersResult ti,
         { attempts := [w.id], markedOffline := [w.id], registryCalls := 1 }) := by
  unfold send_task_with_retry
  have h2b := h2
  simp only [List.mem_singleton] at h2b
  have hp2 : pick_worker env [w.id]
      { attempts := [w.id], markedOffline := [w.id], registryCalls := 0 } w
      = .exhausted { attempts := [w.id], markedOffline := [w.id], registryCalls := 1 } := by
    simp [pick_worker, h2b]
  simp [loop_step, pick_worker_initial, hp2, setAdd, h1]

/-- The first entry of the attempt trace is always the initially assigned
worker. -/
theorem send_first_attempt (env : Env) (ti : Nat) (w : Worker) (maxR : Nat)
    (h : 0 < maxR) :
    ∃ s, (send_task_with_retry env ti w maxR).2.attempts = w.id :: s := by
  obtain ⟨m, rfl⟩ : ∃ m, maxR = m + 1 := ⟨maxR - 1, by omega⟩
  by_cases hs : (send_task_to_worker (env.transport 0 w) w.vm_url (some w.id)).status
      = "success"
  · exact ⟨[], by rw [retry_start_success env ti m w hs]⟩
  · obtain ⟨s2, hs2⟩ := loop_attempts_extend env ti (m + 1) m w (setAdd [] w.id)
      { attempts := [w.id], markedOffline := [w.id], registryCalls := 0 }
    have key : send_task_with_retry env ti w (m + 1)
        = send_task_with_retry_loop env ti (m + 1) m w (setAdd [] w.id)
            { attempts := [w.id], markedOffline := [w.id], registryCalls := 0 } := by
      unfold send_task_with_retry
      simp [loop_step, pick_worker_initial, hs]
    refine ⟨s2, ?_⟩
    rw [key, hs2]
    rfl

/-- C1: at the failing input (worker-side execution exceeds its declared
timeout), the worker node does answer with the timeout-class failure
(HTTP 408, detail "Task execution timed out after 30 seconds"), but —
contrary to the claim — the Dispatcher does not treat that response as a
transport failure: since `send_task_to_worker` never inspects the HTTP status
code and the 408 body parses as JSON, the attempt is reported with dispatch
status `success` carrying the error object, the worker is never marked
offline, and no reassignment happens even though the untried worker `wB` is
active at the registry. -/
theorem C1_timeout_reply_not_failed_over :
    execute_task "" none 0 30 .timedOut "t0"
      = .httpError 408 "Task execution timed out after 30 seconds" ∧
    (send_task_with_retry envTimeout408 0 wA 3).1.status = "success" ∧
    (send_task_with_retry envTimeout408 0 wA 3).1.result
      = some (.detail "Task execution timed out after 30 seconds") ∧
    (send_task_with_retry envTimeout408 0 wA 3).2.markedOffline = [] ∧
    (send_task_with_retry envTimeout408 0 wA 3).2.attempts = [wA.id] ∧
    (send_task_with_retry envTimeout408 0 wA 3).2.registryCalls = 0 := by
  decide

/-- C2: when the worker completes the round trip with a 2xx response whose
payload reports an execution-level failure (`status: failed`, populated
`error`), the dispatch layer reports `success` carrying that failed payload,
the worker is not marked offline, the subtask is not reassigned (single
attempt, no registry query). -/
theorem C2_execution_failure_no_failover (env : Env) (task_index statusCode : Nat)
    (w : Worker) (r : TaskResponse)
    (htr : env.transport 0 w = .responded statusCode (.taskResponse r))
    (h2xx : 200 ≤ statusCode ∧ statusCode < 300)
    (hfail : r.status = "failed") (herr : r.error ≠ "") :
    (send_task_with_retry env task_index w 3).1
      = { worker := w.vm_url, worker_id := some w.id, status := "success",
          result := some (.taskResponse r), error := none, task_index := none } ∧
    (send_task_with_retry env task_index w 3).2.markedOffline = [] ∧
    (send_task_with_retry env task_index w 3).2.attempts = [w.id] ∧
    (send_task_with_retry env task_index w 3).2.registryCalls = 0 := by
  have hs : (send_task_to_worker (env.transport 0 w) w.vm_url (some w.id)).status
      = "success" := by
    rw [htr]
    rfl
  have key : send_task_with_retry env task_index w 3
      = (send_task_to_worker (env.transport 0 w) w.vm_url (some w.id),
         { attempts := [w.id], markedOffline := [], registryCalls := 0 }) :=
    retry_start_success env task_index 2 w hs
  rw [key, htr]
  exact ⟨rfl, rfl, rfl, rfl⟩

/-- C2 witness: concrete run where the worker answers 200 with a failed
execution payload. -/
theorem C2_execution_failure_no_failover_witness :
    (send_task_with_retry envExecFailed 0 wA 3).1
      = { worker := wA.vm_url, worker_id := some wA.id, status := "success",
          result := some (.taskResponse respFailed), error := none, task_index := none } ∧
    (send_task_with_retry envExecFailed 0 wA 3).2.markedOffline = [] ∧
    (send_task_with_retry envExecFailed 0 wA 3).2.attempts = [wA.id] ∧
    (send_task_with_retry envExecFailed 0 wA 3).2.registryCalls = 0 :=
  C2_execution_failure_no_failover envExecFailed 0 200 wA respFailed rfl
    (by decide) rfl (by decide)

/-- C3: within one retry loop no worker id is ever attempted twice — the
attempt trace produced by `send_task_with_retry` is duplicate-free, because
reassignment filters the re-fetched active-worker list against the attempted
set. -/
theorem C3_no_worker_attempted_twice (env : Env) (task_index : Nat)
    (initial_worker : Worker) (max_retries : Nat) :
    ((send_task_with_retry env task_index initial_worker max_retries).2.attempts).Nodup := by
  apply loop_attempts_nodup
  · simp
  · intro x hx
    simp at hx

/-- C4: a subtask never makes more than 3 outbound `/execute` attempts, and
the terminal error is exactly the message `Task failed after 3 retries`
precisely when all 3 attempts were used and none succeeded — in particular the
bound forces that message regardless of how many untried workers the registry
still offers. -/
theorem C4_attempt_bound_and_retry_message (env : Env) (task_index : Nat)
    (initial_worker : Worker) :
    (send_task_with_retry env task_index initial_worker 3).2.attempts.length ≤ 3 ∧
    ((send_task_with_retry env task_index initial_worker 3).1.error
        = some "Task failed after 3 retries" ↔
      ((send_task_with_retry env task_index initial_worker 3).2.attempts.length = 3 ∧
        (send_task_with_retry env task_index initial_worker 3).1.status = "error")) := by
  have h := loop_cases env task_index 3 3 initial_worker []
    { attempts := [], markedOffline := [], registryCalls := 0 }
  unfold send_task_with_retry
  rcases h with ⟨h1, h2⟩ | ⟨hs, he, hti, hl⟩ | ⟨h1, h2⟩
  · simp only [List.length_nil, Nat.zero_add] at h2
    refine ⟨by omega, ?_, ?_⟩
    · intro _
      rw [h1]
      exact ⟨h2, rfl⟩
    · intro _
      rw [h1]
      rfl
  · simp only [List.length_nil, Nat.zero_add] at hl
    refine ⟨hl, ?_, ?_⟩
    · intro hcontra
      rw [he] at hcontra
      cases hcontra
    · rintro ⟨-, hst⟩
      rw [hs] at hst
      exact absurd hst (by decide)
  · simp only [List.length_nil, Nat.zero_add] at h2
    refine ⟨by omega, ?_, ?_⟩
    · intro hcontra
      rw [h1] at hcontra
      simp [noWorkersResult] at hcontra
    · rintro ⟨hlen, -⟩
      exfalso
      omega

/-- C4 witness: concrete run where every attempt fails and a four-worker pool
keeps offering untried candidates, yet the loop stops at 3 attempts with the
retry-bound message. -/
theorem C4_attempt_bound_and_retry_message_witness :
    (send_task_with_retry envFailAll 0 wA 3).2.attempts.length ≤ 3 ∧
    ((send_task_with_retry envFailAll 0 wA 3).1.error
        = some "Task failed after 3 retries" ↔
      ((send_task_with_retry envFailAll 0 wA 3).2.attempts.length = 3 ∧
        (send_task_with_retry envFailAll 0 wA 3).1.status = "error")) :=
  C4_attempt_bound_and_retry_message envFailAll 0 wA

/-- C5: with a nonempty worker snapshot, subtask `i` is initially attempted on
`workers[i % len(workers)]`, the modulus taken over the run-start snapshot
length — witnessed by the first entry of the subtask's attempt trace. -/
theorem C5_round_robin_initial_assignment (envs : Nat → Env) (tasks : List String)
    (workers : List Worker) (i : Nat) (hw : workers ≠ []) (hi : i < tasks.length) :
    ∃ L p w0, distribute_tasks envs tasks workers = .ok L ∧ L[i]? = some p ∧
      workers[i % workers.length]? = some w0 ∧
      p.2.attempts.head? = some w0.id := by
  rcases tasks with _ | ⟨t, ts⟩
  · exact absurd hi (by simp)
  rcases workers with _ | ⟨w, ws⟩
  · exact absurd rfl hw
  refine ⟨_, send_task_with_retry (envs i) i
      ((w :: ws).get ⟨i % (w :: ws).length, Nat.mod_lt i (Nat.succ_pos ws.length)⟩) 3,
    (w :: ws).get ⟨i % (w :: ws).length, Nat.mod_lt i (Nat.succ_pos ws.length)⟩,
    rfl, ?_, ?_, ?_⟩
  · rw [List.getElem?_map, List.getElem?_range hi]
    rfl
  · rw [List.getElem?_eq_getElem
      (Nat.mod_lt i (by simp) : i % (w :: ws).length < (w :: ws).length)]
    rw [List.get_eq_getElem]
  · obtain ⟨s, hs⟩ := send_first_attempt (envs i) i
      ((w :: ws).get ⟨i % (w :: ws).length, Nat.mod_lt i (Nat.succ_pos ws.length)⟩) 3
      (by omega)
    rw [hs]
    rfl

/-- C5 witness: two workers, two subtasks; subtask 1 starts on worker
`wB = workers[1 % 2]`. -/
theorem C5_round_robin_initial_assignment_witness :
    ∃ L p w0, distribute_tasks (fun _ => envOkAll) ["a", "b"] [wA, wB] = .ok L ∧
      L[1]? = some p ∧
      ([wA, wB] : List Worker)[1 % ([wA, wB] : List Worker).length]? = some w0 ∧
      p.2.attempts.head? = some w0.id :=
  C5_round_robin_initial_assignment (fun _ => envOkAll) ["a", "b"] [wA, wB] 1
    (by decide) (by decide)

/-- C6: with a nonempty worker snapshot, `distribute_tasks` returns exactly
one result per subtask, in subtask order (an error result carries as
`task_index` its own position), each terminally marked `success` or `error`. -/
theorem C6_results_total_and_ordered (envs : Nat → Env) (tasks : List String)
    (workers : List Worker) (i : Nat) (hw : workers ≠ []) (hi : i < tasks.length) :
    ∃ L p, distribute_tasks envs tasks workers = .ok L ∧ L.length = tasks.length ∧
      L[i]? = some p ∧
      ((p.1.status = "success" ∧ p.1.task_index = none) ∨
        (p.1.status = "error" ∧ p.1.task_index = some i)) := by
  rcases tasks with _ | ⟨t, ts⟩
  · exact absurd hi (by simp)
  rcases workers with _ | ⟨w, ws⟩
  · exact absurd rfl hw
  refine ⟨_, send_task_with_retry (envs i) i
      ((w :: ws).get ⟨i % (w :: ws).length, Nat.mod_lt i (Nat.succ_pos ws.length)⟩) 3,
    rfl, by simp, ?_, ?_⟩
  · rw [List.getElem?_map, List.getElem?_range hi]
    rfl
  · have h := loop_cases (envs i) i 3 3
      ((w :: ws).get ⟨i % (w :: ws).length, Nat.mod_lt i (Nat.succ_pos ws.length)⟩) []
      { attempts := [], markedOffline := [], registryCalls := 0 }
    unfold send_task_with_retry
    rcases h with ⟨h1, -⟩ | ⟨hs, -, hti, -⟩ | ⟨h1, -⟩
    · right
      rw [h1]
      exact ⟨rfl, rfl⟩
    · left
      exact ⟨hs, hti⟩
    · right
      rw [h1]
      exact ⟨rfl, rfl⟩

/-- C6 witness: two subtasks on two workers give two results; the result at
position 1 is a dispatch success. -/
theorem C6_results_total_and_ordered_witness :
    ∃ L p, distribute_tasks (fun _ => envOkAll) ["a", "b"] [wA, wB] = .ok L ∧
      L.length = (["a", "b"] : List String).length ∧ L[1]? = some p ∧
      ((p.1.status = "success" ∧ p.1.task_index = none) ∨
        (p.1.status = "error" ∧ p.1.task_index = some 1)) :=
  C6_results_total_and_ordered (fun _ => envOkAll) ["a", "b"] [wA, wB] 1
    (by decide) (by decide)

/-- C7 counterexample: with an empty worker snapshot and one subtask,
`distribute_tasks` does not produce any per-subtask error results at all — it
raises `ZeroDivisionError` computing `i % len(workers)` for the first subtask,
so the run yields no result list. -/
theorem C7_empty_pool_counterexample :
    distribute_tasks (fun _ => envOkAll) ["t"] []
      = .error "ZeroDivisionError: integer division or modulo by zero" ∧
    (distribute_tasks (fun _ => envOkAll) ["t"] []).toOption = none :=
  ⟨rfl, rfl⟩

/-- C7 amended: with an empty worker snapshot and a nonempty subtask list, the
operation fails immediately — but by raising `ZeroDivisionError` out of the
round-robin index computation, producing no `TaskResult`s (and hence touching
no registry), not by emitting a no-workers error result per subtask. -/
theorem C7_empty_pool_raises (envs : Nat → Env) (tasks : List String)
    (h : tasks ≠ []) :
    distribute_tasks envs tasks []
      = .error "ZeroDivisionError: integer division or modulo by zero" := by
  rcases tasks with _ | ⟨t, ts⟩
  · exact absurd rfl h
  · rfl

/-- C7 witness: the amended statement at a concrete two-subtask run. -/
theorem C7_empty_pool_raises_witness :
    distribute_tasks (fun _ => envFailAll) ["a", "b"] []
      = .error "ZeroDivisionError: integer division or modulo by zero" :=
  C7_empty_pool_raises (fun _ => envFailAll) ["a", "b"] (by decide)

/-- Unfolding equation for `execute_task`. -/
theorem execute_task_eq (token : String) (header : Option String)
    (task_id timeout : Nat) (oexec : ExecOutcome) (now : String) :
    execute_task token header task_id timeout oexec now
      = match verify_auth_token token header with
        | .unauthorized d => .httpError 401 d
        | .ok => run_task_subprocess task_id timeout oexec now := rfl

/-- A configured secret rejects a request with no auth header. -/
theorem verify_auth_token_none (token : String) (htok : token ≠ "") :
    verify_auth_token token none = .unauthorized "Missing X-NADG-AUTH header" := by
  unfold verify_auth_token
  rw [if_neg htok]

/-- A configured secret compares the present header against the secret. -/
theorem verify_auth_token_some (token hv : String) (htok : token ≠ "") :
    verify_auth_token token (some hv)
      = if hv ≠ token then .unauthorized "Invalid authentication token"
        else .ok := by
  unfold verify_auth_token
  rw [if_neg htok]

/-- With no configured secret the check is skipped entirely. -/
theorem verify_auth_token_skip (header : Option String) :
    verify_auth_token "" header = .ok := by
  unfold verify_auth_token
  rw [if_pos rfl]

/-- C8: on every `/execute` request, if a shared secret is configured the
request is rejected with HTTP 401 exactly when the auth header is missing or
differs from the secret, and otherwise proceeds to subprocess execution; if no
secret is configured the check is skipped and every request proceeds to
execution regardless of the header. -/
theorem C8_auth_gate (token : String) (header : Option String)
    (task_id timeout : Nat) (oexec : ExecOutcome) (now : String) :
    (token ≠ "" →
      (((∃ d, execute_task token header task_id timeout oexec now
            = .httpError 401 d) ↔
          (header = none ∨ ∃ h, header = some h ∧ h ≠ token)) ∧
        (header = some token →
          execute_task token header task_id timeout oexec now
            = run_task_subprocess task_id timeout oexec now))) ∧
    (token = "" →
      execute_task token header task_id timeout oexec now
        = run_task_subprocess task_id timeout oexec now) := by
  have hrun : ∀ d, run_task_subprocess task_id timeout oexec now ≠ .httpError 401 d := by
    intro d hd
    cases oexec <;> simp [run_task_subprocess] at hd
  constructor
  · intro htok
    constructor
    · constructor
      · rintro ⟨d, hd⟩
        rw [execute_task_eq] at hd
        cases header with
        | none => exact Or.inl rfl
        | some hv =>
          rw [verify_auth_token_some token hv htok] at hd
          by_cases hh : hv ≠ token
          · exact Or.inr ⟨hv, rfl, hh⟩
          · rw [if_neg hh] at hd
            exact absurd hd (hrun d)
      · rintro (rfl | ⟨hv, rfl, hh⟩)
        · refine ⟨"Missing X-NADG-AUTH header", ?_⟩
          rw [execute_task_eq, verify_auth_token_none token htok]
        · refine ⟨"Invalid authentication token", ?_⟩
          rw [execute_task_eq, verify_auth_token_some token hv htok, if_pos hh]
    · rintro rfl
      rw [execute_task_eq, verify_auth_token_some token token htok,
        if_neg (by simp : ¬token ≠ token)]
  · intro htok
    subst htok
    rw [execute_task_eq, verify_auth_token_skip]

/-- C8 witness: with a configured secret and a missing header, the request is
rejected with 401. -/
theorem C8_auth_gate_witness :
    ∃ d, execute_task "secret" none 0 30 (.finished 0 "out" "") "t0"
      = .httpError 401 d :=
  (((C8_auth_gate "secret" none 0 30 (.finished 0 "out" "") "t0").1
    (by decide)).1).mpr (Or.inl rfl)

/-- C9 counterexample: in a run with snapshot `[wA, wB]` and a single subtask
that succeeds on `wA`, worker id 2 (`wB`) never received any subtask, yet the
post-run update loop still calls `update_worker_task_count` for it — the
update is per snapshot worker, not per worker that received a subtask. -/
theorem C9_idle_worker_still_updated :
    2 ∈ run_update_calls (fun _ => envOkAll) ["t"] [wA, wB] ∧
    2 ∉ run_attempted_ids (fun _ => envOkAll) ["t"] [wA, wB] := by
  decide

/-- C9 amended: after a run that returns results, `update_worker_task_count`
is called exactly once for every worker of the run-start snapshot — regardless
of whether it received any subtask and regardless of outcomes — and never for
a worker outside the snapshot. -/
theorem C9_update_once_per_snapshot_worker (envs : Nat → Env)
    (tasks : List String) (workers : List Worker) (w : Worker) (n : Nat)
    (hmem : w ∈ workers) (hnd : (workers.map Worker.id).Nodup)
    (hn : n ∉ workers.map Worker.id) :
    (run_update_calls envs tasks workers).count w.id = 1 ∧
    (run_update_calls envs tasks workers).count n = 0 := by
  have hok : run_update_calls envs tasks workers = workers.map Worker.id := by
    unfold run_update_calls
    rcases tasks with _ | ⟨t, ts⟩
    · rfl
    · rcases workers with _ | ⟨w0, ws⟩
      · cases hmem
      · rfl
  rw [hok]
  exact ⟨List.count_eq_one_of_mem hnd (List.mem_map_of_mem Worker.id hmem),
    List.count_eq_zero_of_not_mem hn⟩

/-- C9 witness: the amended statement at a concrete run — both snapshot
workers are counted once, an id outside the snapshot never. -/
theorem C9_update_once_per_snapshot_worker_witness :
    (run_update_calls (fun _ => envOkAll) ["t"] [wA, wB]).count wA.id = 1 ∧
    (run_update_calls (fun _ => envOkAll) ["t"] [wA, wB]).count 99 = 0 :=
  C9_update_once_per_snapshot_worker (fun _ => envOkAll) ["t"] [wA, wB] wA 99
    (by decide) (by decide) (by decide)

/-- C10: if the first attempt raises and the reassignment-time registry query
fails, `get_active_workers` returns the empty list and the retry loop
terminates with the `No available workers remaining` error result — the very
same `TaskResult` value produced when the registry succeeds but every active
worker is already in the attempted set, so a registry outage is
indistinguishable from pool exhaustion in the result. -/
theorem C10_registry_outage_looks_like_exhaustion (env env2 : Env)
    (task_index : Nat) (w : Worker) (m0 m2 mr : String)
    (h1 : env.transport 0 w = .raised m0) (h2 : env.registry 0 = .raised mr)
    (h3 : env2.transport 0 w = .raised m2) (h4 : env2.registry 0 = .ok [w]) :
    get_active_workers (env.registry 0) = [] ∧
    (send_task_with_retry env task_index w 3).1 = noWorkersResult task_index ∧
    (send_task_with_retry env task_index w 3).1
      = (send_task_with_retry env2 task_index w 3).1 := by
  have ha : get_active_workers (env.registry 0) = [] := by
    rw [h2]
    rfl
  have hkey : send_task_with_retry env task_index w 3
      = (noWorkersResult task_index,
         { attempts := [w.id], markedOffline := [w.id], registryCalls := 1 }) := by
    apply retry_start_fail_then_exhaust env task_index 1 w
    · rw [h1]
      intro hc
      exact absurd (show ("error" : String) = "success" from hc) (by decide)
    · rw [ha]
      rfl
  have hkey2 : send_task_with_retry env2 task_index w 3
      = (noWorkersResult task_index,
         { attempts := [w.id], markedOffline := [w.id], registryCalls := 1 }) := by
    apply retry_start_fail_then_exhaust env2 task_index 1 w
    · rw [h3]
      intro hc
      exact absurd (show ("error" : String) = "success" from hc) (by decide)
    · rw [h4]
      simp [get_active_workers]
  exact ⟨ha, by rw [hkey], by rw [hkey, hkey2]⟩

/-- C10 witness: concrete registry-outage run versus concrete
pool-exhaustion run. -/
theorem C10_registry_outage_looks_like_exhaustion_witness :
    get_active_workers (envOutage.registry 0) = [] ∧
    (send_task_with_retry envOutage 0 wA 3).1 = noWorkersResult 0 ∧
    (send_task_with_retry envOutage 0 wA 3).1
      = (send_task_with_retry envExhaust 0 wA 3).1 :=
  C10_registry_outage_looks_like_exhaustion envOutage envExhaust 0 wA
    "Cannot connect to host" "Cannot connect to host" "registry unavailable"
    rfl rfl rfl rfl

end NADG
